import Mathlib

/-!
Verification of the Beurer TL100 daylight-lamp BLE driver (`beurer.py`).

The development shallowly embeds the driver's pure core:

* the packet codec (`makeChecksum`, the packet built by `sendPacket`);
* the driver state machine (`turn_on`, `turn_off`, `set_color`, `set_white`,
  `set_effect`, `set_color_brightness`), with BLE I/O abstracted into an
  `Outcome` record that collects the command payloads handed to `sendPacket`
  and counts connection attempts; a single boolean `env` says whether a
  connection attempt succeeds;
* the status-notification reconciliation (`notification_handler`), with
  list indexing made explicit (`List.getElem?`) so that an out-of-range access,
  which raises `IndexError` in the Python source, surfaces as `none`.
-/

namespace Beurer

/-- The two color modes stored in `self._mode` (`COLOR_MODE_WHITE` /
`COLOR_MODE_RGB`). -/
inductive ColorMode
  | white
  | rgb
deriving DecidableEq

/-- The mutable fields of `BeurerInstance` relevant to the driver state
machine, as initialized in `__init__` and mutated by the command and
notification paths.  `connected` abstracts `self._device.is_connected`. -/
structure DriverState where
  isOn : Bool
  lightOn : Bool
  colorOn : Bool
  rgbColor : Nat × Nat × Nat
  brightness : Option Nat
  colorBrightness : Option Nat
  effect : String
  mode : ColorMode
  connected : Bool
deriving DecidableEq

/-- `self._supported_effects`. -/
def supported_effects : List String :=
  ["Off", "Random", "Rainbow", "Rainbow Slow", "Fusion", "Pulse", "Wave",
   "Chill", "Action", "Forest", "Summer"]

/-- `find_effect_position`: `None` falls back to `"Off"`; an unknown effect
name falls back to index 0. -/
def find_effect_position (e : Option String) : Nat :=
  let t := e.getD "Off"
  match supported_effects.findIdx? (fun s => s = t) with
  | some i => i
  | none => 0

/-- `makeChecksum`: XOR-fold of the seed `b` with every byte of `bArr`, in
sequence order (the `for b2 in bArr: b = b ^ b2` loop). -/
def makeChecksum (b : Nat) (bArr : List Nat) : Nat :=
  bArr.foldl (fun x y => x ^^^ y) b

/-- The framed packet built inside `sendPacket`:
`[0xFE,0xEF,0x0A,len+7,0xAB,0xAA,len+2] + message + [checksum,0x55,0x0D,0x0A]`
with `checksum = makeChecksum(len+2, message)`. -/
def buildPacket (message : List Nat) : List Nat :=
  [0xFE, 0xEF, 0x0A, message.length + 7, 0xAB, 0xAA, message.length + 2] ++
    message ++ [makeChecksum (message.length + 2) message, 0x55, 0x0D, 0x0A]

/-- The state as set up by `__init__`: everything off, color `(0,0,0)`,
brightnesses unknown (`None`), effect `"Off"`, mode white, not connected. -/
def initState : DriverState :=
  { isOn := false, lightOn := false, colorOn := false, rgbColor := (0, 0, 0),
    brightness := none, colorBrightness := none, effect := "Off",
    mode := ColorMode.white, connected := false }

/-- The effect of one driver entry point: the final state, the command
payloads handed to `sendPacket` in order (only those actually written), and
how many connection attempts were made. -/
structure Outcome where
  state : DriverState
  sent : List (List Nat)
  attempts : Nat
deriving DecidableEq

/-- Sequencing of effects: run `o`, feed its final state to `f`, concatenate
the sent packets and add the attempt counts. -/
def andThen (o : Outcome) (f : DriverState → Outcome) : Outcome :=
  { state := (f o.state).state, sent := o.sent ++ (f o.state).sent,
    attempts := o.attempts + (f o.state).attempts }

/-- `disconnect` clears `_is_on`, `_light_on` and `_color_on`. -/
def clearFlags (s : DriverState) : DriverState :=
  { s with isOn := false, lightOn := false, colorOn := false }

/-- One call to `connect()` from a disconnected state.  On success it
subscribes and issues the initial `triggerStatus` (the two `0x30` queries);
on failure `connect()` falls through to `disconnect()`, which clears the
on-flags. -/
def tryConnect (env : Bool) (s : DriverState) : Outcome :=
  if env then
    { state := { s with connected := true },
      sent := [[0x30, 0x01], [0x30, 0x02]], attempts := 1 }
  else
    { state := clearFlags s, sent := [], attempts := 1 }

/-- `sendPacket`: if disconnected, first attempt `connect()`; on failure
return without writing; otherwise write the framed packet for `msg`. -/
def sendPacket (env : Bool) (msg : List Nat) (s : DriverState) : Outcome :=
  if s.connected then { state := s, sent := [msg], attempts := 0 }
  else
    let o := tryConnect env s
    if o.state.connected then
      { state := o.state, sent := o.sent ++ [msg], attempts := o.attempts }
    else o

/-- `triggerStatus`: the two status-query sub-commands. -/
def triggerStatus (env : Bool) (s : DriverState) : Outcome :=
  andThen (sendPacket env [0x30, 0x01] s) (fun s1 => sendPacket env [0x30, 0x02] s1)

/-- The percent conversion `max(0, min(100, int(v / 255 * 100)))`.  For
`0 ≤ v ≤ 255` the float expression `int(v / 255 * 100)` equals the
truncating integer division `v * 100 / 255` (the rounding error of the two
float operations is far smaller than the distance from any non-integer
`v*100/255` to the nearest integer, and the six exactly-integer cases are
computed exactly). -/
def pct (v : Nat) : Nat :=
  max 0 (min 100 (v * 100 / 255))

/-- `set_effect` with `_from_turn_on=True`: optimistic update (mode to RGB,
store the effect), then the `0x34` command and a status refresh. -/
def applyEffect (env : Bool) (e : Option String) (s : DriverState) : Outcome :=
  let eff := e.getD "Off"
  let s1 := { s with mode := ColorMode.rgb, effect := eff }
  andThen (sendPacket env [0x34, find_effect_position (some eff)] s1)
    (fun s2 => triggerStatus env s2)

/-- `set_color` with `_from_turn_on=True`: optimistic update, then the
`0x32` command and a status refresh. -/
def applyColor (env : Bool) (c : Nat × Nat × Nat) (s : DriverState) : Outcome :=
  let s1 := { s with mode := ColorMode.rgb, rgbColor := c }
  andThen (sendPacket env [0x32, c.1, c.2.1, c.2.2] s1)
    (fun s2 => triggerStatus env s2)

/-- `set_color_brightness` with `_from_turn_on=True`: `None` defaults to
255, optimistic update, then the `0x31 0x02` command and a status refresh. -/
def applyColorBrightness (env : Bool) (b : Option Nat) (s : DriverState) : Outcome :=
  let v := b.getD 255
  let s1 := { s with mode := ColorMode.rgb, colorBrightness := some v }
  andThen (sendPacket env [0x31, 0x02, pct v] s1) (fun s2 => triggerStatus env s2)

/-- The body of `turn_on` once the device is connected: mode select
(`0x37 0x01` white / `0x37 0x02` color), flag updates, and — only when the
lamp was fully off and the target mode is color — the restore sequence
(effect, color with the zero-triple substituted by white, color
brightness), each via the recursion-guarded internal calls; finally
`_is_on = True` and a status refresh. -/
def turnOnBody (env : Bool) (s : DriverState) : Outcome :=
  if s.mode = ColorMode.white then
    andThen (sendPacket env [0x37, 0x01] s) (fun s1 =>
      triggerStatus env { s1 with lightOn := true, colorOn := false, isOn := true })
  else
    andThen (sendPacket env [0x37, 0x02] { s with mode := ColorMode.rgb }) (fun s1 =>
      let s2 := { s1 with colorOn := true, lightOn := false }
      let rest : Outcome :=
        if s2.isOn then { state := s2, sent := [], attempts := 0 }
        else
          andThen (applyEffect env (some s2.effect) s2) (fun s3 =>
            andThen
              (applyColor env
                (if s3.rgbColor = (0, 0, 0) then (255, 255, 255) else s3.rgbColor) s3)
              (fun s4 => applyColorBrightness env s4.colorBrightness s4))
      andThen rest (fun s5 => triggerStatus env { s5 with isOn := true }))

/-- `turn_on`: ensure connectivity (a failed `connect()` aborts the
command), then run the body. -/
def turn_on (env : Bool) (s : DriverState) : Outcome :=
  if s.connected then turnOnBody env s
  else
    let o := tryConnect env s
    if o.state.connected then andThen o (fun s1 => turnOnBody env s1) else o

/-- `turn_off`: the two `0x35` off sub-commands, clear all on-flags, then a
status refresh. -/
def turn_off (env : Bool) (s : DriverState) : Outcome :=
  andThen (sendPacket env [0x35, 0x01] s) (fun s1 =>
    andThen (sendPacket env [0x35, 0x02] s1) (fun s2 =>
      triggerStatus env { s2 with isOn := false, lightOn := false, colorOn := false }))

/-- Public `set_color`: optimistic update; if the lamp is not on in color
mode, delegate to `turn_on` (which replays the just-stored values);
otherwise send the `0x32` command directly. -/
def set_color (env : Bool) (c : Nat × Nat × Nat) (s : DriverState) : Outcome :=
  let s1 := { s with mode := ColorMode.rgb, rgbColor := c }
  if !s1.isOn || !s1.colorOn then turn_on env s1
  else
    andThen (sendPacket env [0x32, c.1, c.2.1, c.2.2] s1)
      (fun s2 => triggerStatus env s2)

/-- Public `set_color_brightness`: `None` defaults to 255; delegate to
`turn_on` unless already on in color mode. -/
def set_color_brightness (env : Bool) (b : Option Nat) (s : DriverState) : Outcome :=
  let v := b.getD 255
  let s1 := { s with mode := ColorMode.rgb, colorBrightness := some v }
  if !s1.isOn || !s1.colorOn then turn_on env s1
  else
    andThen (sendPacket env [0x31, 0x02, pct v] s1) (fun s2 => triggerStatus env s2)

/-- Public `set_white`: `None` defaults to 255; delegate to `turn_on`
unless already on in white mode; otherwise send `0x31 0x01` and then force
the effect to `"Off"` via the internal `set_effect` call. -/
def set_white (env : Bool) (i : Option Nat) (s : DriverState) : Outcome :=
  let v := i.getD 255
  let s1 := { s with mode := ColorMode.white, brightness := some v }
  if !s1.isOn || !s1.lightOn then turn_on env s1
  else
    andThen (sendPacket env [0x31, 0x01, pct v] s1)
      (fun s2 => applyEffect env (some "Off") s2)

/-- Public `set_effect`: `None` defaults to `"Off"`; delegate to `turn_on`
unless already on in color mode. -/
def set_effect (env : Bool) (e : Option String) (s : DriverState) : Outcome :=
  let eff := e.getD "Off"
  let s1 := { s with mode := ColorMode.rgb, effect := eff }
  if !s1.isOn || !s1.colorOn then turn_on env s1
  else
    andThen (sendPacket env [0x34, find_effect_position (some eff)] s1)
      (fun s2 => triggerStatus env s2)

/-- The tail shared by the merging branches of `notification_handler`:
recompute `_is_on = _light_on or _color_on`, trigger an entity update if it
changed, and report whether the change callback fires. -/
def mergeTail (trigger : Bool) (s : DriverState) : DriverState × Bool :=
  let newIsOn := s.lightOn || s.colorOn
  ({ s with isOn := newIsOn }, trigger || decide (s.isOn ≠ newIsOn))

/-- `notification_handler`, with every `res[i]` access made explicit via
`List.getElem?`: a `none` result marks the `IndexError` the Python code raises
on an index past the end of the notification.  On success it returns the
reconciled state together with the fired-callback flag. -/
def notification_handler (res : List Nat) (s : DriverState) :
    Option (DriverState × Bool) :=
  if res.length < 9 then some (s, false)
  else
    match res[8]? with
    | none => none
    | some rv =>
      if rv = 1 then
        match res[9]? with
        | none => none
        | some b9 =>
          if b9 = 1 then
            match res[10]? with
            | none => none
            | some b10 =>
              let newBrightness : Option Nat :=
                some (if 0 < b10 then b10 * 255 / 100 else 0)
              let trigger :=
                decide (s.lightOn ≠ true) || decide (s.brightness ≠ newBrightness)
              some (mergeTail trigger
                { s with
                    lightOn := true, brightness := newBrightness
                    mode := ColorMode.white })
          else
            let trigger :=
              decide (s.lightOn ≠ false) || decide (s.brightness ≠ (none : Option Nat))
            some (mergeTail trigger { s with lightOn := false, brightness := none })
      else if rv = 2 then
        match res[9]? with
        | none => none
        | some b9 =>
          if b9 = 1 then
            match res[16]? with
            | none => none
            | some b16 =>
              match res[10]? with
              | none => none
              | some b10 =>
                match res[13]? with
                | none => none
                | some b13 =>
                  match res[14]? with
                  | none => none
                  | some b14 =>
                    match res[15]? with
                    | none => none
                    | some b15 =>
                      let newEffect :=
                        if h : b16 < supported_effects.length then
                          supported_effects.get ⟨b16, h⟩
                        else "Off"
                      let newCB : Option Nat :=
                        some (if 0 < b10 then b10 * 255 / 100 else 0)
                      let newRgb := (b13, b14, b15)
                      let trigger :=
                        decide (s.colorOn ≠ true) || decide (s.effect ≠ newEffect) ||
                          decide (s.colorBrightness ≠ newCB) ||
                          decide (s.rgbColor ≠ newRgb)
                      some (mergeTail trigger
                        { s with
                            colorOn := true, effect := newEffect
                            colorBrightness := newCB, rgbColor := newRgb
                            mode := ColorMode.rgb })
          else
            let trigger :=
              decide (s.colorOn ≠ false) ||
                decide (s.colorBrightness ≠ (none : Option Nat))
            some (mergeTail trigger { s with colorOn := false, colorBrightness := none })
      else if rv = 255 then
        let trigger := s.isOn || s.lightOn || s.colorOn
        some (mergeTail trigger
          { s with isOn := false, lightOn := false, colorOn := false })
      else if rv = 0 then
        some ({ s with
          connected := false, isOn := false, lightOn := false
          colorOn := false }, false)
      else some (s, false)

/-- The public entry points claim C3 quantifies over. -/
inductive Op
  | white (i : Option Nat)
  | color (c : Nat × Nat × Nat)
  | eff (e : Option String)
  | turnOnOp
  | turnOffOp

/-- Dispatch one public entry point. -/
def runOp (env : Bool) (op : Op) (s : DriverState) : Outcome :=
  match op with
  | Op.white i => set_white env i s
  | Op.color c => set_color env c s
  | Op.eff e => set_effect env e s
  | Op.turnOnOp => turn_on env s
  | Op.turnOffOp => turn_off env s

/-- Run a sequence of public entry points, each to completion. -/
def runOps (env : Bool) (ops : List Op) (s : DriverState) : DriverState :=
  match ops with
  | [] => s
  | op :: rest => runOps env rest ((runOp env op s).state)

/-- The mode invariant of the spec: `power_on == (white_on || color_on)`. -/
def inv (s : DriverState) : Prop :=
  s.isOn = (s.lightOn || s.colorOn)

/-- Modelled from the spec: the spec's percent conversions use
`round(value/255*100)`; `specRound num den` is round-half-up of the
rational `num / den`, used only to compare the spec's rounding against the
code's truncation. -/
def specRound (num den : Nat) : Nat :=
  (2 * num + den) / (2 * den)

/-- A freshly initialized but connected driver: lamp fully off, white mode. -/
def offWhiteConnected : DriverState := { initState with connected := true }

/-- A connected driver with the lamp on in color mode. -/
def onColorState : DriverState :=
  { initState with connected := true, isOn := true, colorOn := true, mode := ColorMode.rgb }

/-- A connected driver with the lamp on in white mode. -/
def onWhiteState : DriverState :=
  { initState with connected := true, isOn := true, lightOn := true, mode := ColorMode.white }

theorem sendPacket_state (env : Bool) (m : List Nat) (s : DriverState) :
    (sendPacket env m s).state =
      if s.connected then s
      else if env then { s with connected := true } else clearFlags s := by
  by_cases hc : s.connected <;> by_cases he : env <;>
    simp [sendPacket, tryConnect, clearFlags, hc, he]

theorem sendPacket_state_mode (env : Bool) (m : List Nat) (s : DriverState) :
    (sendPacket env m s).state.mode = s.mode := by
  rw [sendPacket_state]; split_ifs <;> simp [clearFlags]

theorem sendPacket_state_effect (env : Bool) (m : List Nat) (s : DriverState) :
    (sendPacket env m s).state.effect = s.effect := by
  rw [sendPacket_state]; split_ifs <;> simp [clearFlags]

theorem clearFlags_inv (s : DriverState) : inv (clearFlags s) := by
  simp [inv, clearFlags]

theorem sendPacket_inv (env : Bool) (m : List Nat) (s : DriverState) (h : inv s) :
    inv (sendPacket env m s).state := by
  rw [sendPacket_state]; split_ifs <;> simp_all [inv, clearFlags]

theorem triggerStatus_inv (env : Bool) (s : DriverState) (h : inv s) :
    inv (triggerStatus env s).state := by
  simpa [triggerStatus, andThen] using
    sendPacket_inv env _ _ (sendPacket_inv env _ _ h)

theorem sendPacket_of_connected (env : Bool) (m : List Nat) (s : DriverState)
    (h : s.connected = true) :
    sendPacket env m s = { state := s, sent := [m], attempts := 0 } := by
  simp [sendPacket, h]

theorem triggerStatus_of_connected (env : Bool) (s : DriverState)
    (h : s.connected = true) :
    triggerStatus env s =
      { state := s, sent := [[0x30, 0x01], [0x30, 0x02]], attempts := 0 } := by
  simp [triggerStatus, andThen, sendPacket, h]

theorem applyEffect_state_of_connected (env : Bool) (e : Option String)
    (s : DriverState) (h : s.connected = true) :
    (applyEffect env e s).state =
      { s with mode := ColorMode.rgb, effect := e.getD "Off" } := by
  simp [applyEffect, andThen, sendPacket, triggerStatus, h]

theorem applyColor_state_of_connected (env : Bool) (c : Nat × Nat × Nat)
    (s : DriverState) (h : s.connected = true) :
    (applyColor env c s).state = { s with mode := ColorMode.rgb, rgbColor := c } := by
  simp [applyColor, andThen, sendPacket, triggerStatus, h]

theorem applyColorBrightness_state_of_connected (env : Bool) (b : Option Nat)
    (s : DriverState) (h : s.connected = true) :
    (applyColorBrightness env b s).state =
      { s with mode := ColorMode.rgb, colorBrightness := some (b.getD 255) } := by
  simp [applyColorBrightness, andThen, sendPacket, triggerStatus, h]

theorem applyEffect_inv (env : Bool) (e : Option String) (s : DriverState)
    (h : inv s) : inv (applyEffect env e s).state := by
  have h1 : inv ({ s with mode := ColorMode.rgb, effect := e.getD "Off" } : DriverState) := by
    simpa [inv] using h
  simpa [applyEffect, andThen] using
    triggerStatus_inv env _ (sendPacket_inv env _ _ h1)

theorem turnOnBody_inv (env : Bool) (s : DriverState) (h : s.connected = true) :
    inv (turnOnBody env s).state := by
  obtain ⟨po, lo, co, rc, br, cb, ef, md, cn⟩ := s
  cases cn
  · simp at h
  · cases md <;> cases po <;>
      simp [turnOnBody, applyEffect, applyColor, applyColorBrightness,
        triggerStatus, sendPacket, tryConnect, andThen, inv]

theorem turn_on_inv (env : Bool) (s : DriverState) : inv (turn_on env s).state := by
  by_cases hc : s.connected = true
  · simpa [turn_on, hc] using turnOnBody_inv env s hc
  · cases he : env
    · simp [turn_on, hc, he, tryConnect, clearFlags, inv]
    · have hb := turnOnBody_inv true ({ s with connected := true }) rfl
      simpa [turn_on, hc, he, tryConnect, andThen] using hb

theorem turn_off_inv (env : Bool) (s : DriverState) : inv (turn_off env s).state := by
  simp only [turn_off, andThen]
  exact triggerStatus_inv env _ (by simp [inv])

theorem set_color_inv (env : Bool) (c : Nat × Nat × Nat) (s : DriverState)
    (h : inv s) : inv (set_color env c s).state := by
  simp only [set_color]
  split_ifs with hg
  · exact turn_on_inv env _
  · simp only [andThen]
    exact triggerStatus_inv env _ (sendPacket_inv env _ _ (by simpa [inv] using h))

theorem set_effect_inv (env : Bool) (e : Option String) (s : DriverState)
    (h : inv s) : inv (set_effect env e s).state := by
  simp only [set_effect]
  split_ifs with hg
  · exact turn_on_inv env _
  · simp only [andThen]
    exact triggerStatus_inv env _ (sendPacket_inv env _ _ (by simpa [inv] using h))

theorem set_white_inv (env : Bool) (i : Option Nat) (s : DriverState)
    (h : inv s) : inv (set_white env i s).state := by
  simp only [set_white]
  split_ifs with hg
  · exact turn_on_inv env _
  · simp only [andThen]
    exact applyEffect_inv env _ _ (sendPacket_inv env _ _ (by simpa [inv] using h))

theorem runOp_inv (env : Bool) (op : Op) (s : DriverState) (h : inv s) :
    inv ((runOp env op s).state) := by
  cases op with
  | white i => exact set_white_inv env i s h
  | color c => exact set_color_inv env c s h
  | eff e => exact set_effect_inv env e s h
  | turnOnOp => exact turn_on_inv env s
  | turnOffOp => exact turn_off_inv env s

theorem runOps_inv (env : Bool) (ops : List Op) (s : DriverState) (h : inv s) :
    inv (runOps env ops s) := by
  induction ops generalizing s with
  | nil => exact h
  | cons op rest ih => exact ih _ (runOp_inv env op s h)

/-- C1: for every payload whose length fits the single length byte, the
packet built by `sendPacket` is exactly the 7-byte header, the payload, and
the checksum/suffix trailer, where the checksum is the XOR-fold of the seed
`len+2` with the payload bytes in order; consequently the checksum byte of
the emitted packet (at offset `7 + len`) equals that XOR-fold. -/
theorem sendPacket_packet_shape (payload : List Nat) (_h : payload.length ≤ 248) :
    buildPacket payload =
      [0xFE, 0xEF, 0x0A, payload.length + 7, 0xAB, 0xAA, payload.length + 2] ++
        payload ++
        [payload.foldl (fun a b => a ^^^ b) (payload.length + 2), 0x55, 0x0D, 0x0A] ∧
    (buildPacket payload)[7 + payload.length]? =
      some (payload.foldl (fun a b => a ^^^ b) (payload.length + 2)) := by
  refine ⟨rfl, ?_⟩
  rw [buildPacket, List.getElem?_append_right (by simp; omega)]
  have h0 : 7 + payload.length -
      ([0xFE, 0xEF, 0x0A, payload.length + 7, 0xAB, 0xAA, payload.length + 2] ++
        payload).length = 0 := by
    simp; omega
  rw [h0]
  simp [makeChecksum]

/-- Witness for C1 at the concrete payload `[0x32, 10, 20, 30]` (a
set-color command). -/
theorem sendPacket_packet_shape_witness :
    ([0x32, 10, 20, 30] : List Nat).length ≤ 248 ∧
      (buildPacket [0x32, 10, 20, 30])[7 + ([0x32, 10, 20, 30] : List Nat).length]? =
        some (([0x32, 10, 20, 30] : List Nat).foldl (fun a b => a ^^^ b)
          (([0x32, 10, 20, 30] : List Nat).length + 2)) :=
  ⟨by decide, (sendPacket_packet_shape [0x32, 10, 20, 30] (by decide)).2⟩


end Beurer

namespace Beurer

theorem triggerStatus_state_mode (env : Bool) (s : DriverState) :
    (triggerStatus env s).state.mode = s.mode := by
  simp [triggerStatus, andThen, sendPacket_state_mode]

theorem triggerStatus_state_effect (env : Bool) (s : DriverState) :
    (triggerStatus env s).state.effect = s.effect := by
  simp [triggerStatus, andThen, sendPacket_state_effect]

theorem applyEffect_state_mode (env : Bool) (e : Option String) (s : DriverState) :
    (applyEffect env e s).state.mode = ColorMode.rgb := by
  simp [applyEffect, andThen, triggerStatus_state_mode, sendPacket_state_mode]

theorem applyEffect_state_effect (env : Bool) (e : Option String) (s : DriverState) :
    (applyEffect env e s).state.effect = e.getD "Off" := by
  simp [applyEffect, andThen, triggerStatus_state_effect, sendPacket_state_effect]

/-- C3: the mode invariant `power_on == (white_on || color_on)` holds in
the initial state, every public operation (`set_white`, `set_color`,
`set_effect`, `turn_on`, `turn_off`) run to completion preserves it, and
therefore it holds after any finite sequence of such calls. -/
theorem mode_invariant :
    inv initState ∧
    (∀ env op s, inv s → inv ((runOp env op s).state)) ∧
    (∀ env ops, inv (runOps env ops initState)) :=
  ⟨rfl, fun env op s h => runOp_inv env op s h,
    fun env ops => runOps_inv env ops initState rfl⟩

/-- Witness for C3: the invariant after one concrete operation and after a
concrete operation sequence. -/
theorem mode_invariant_witness :
    inv ((runOp true (Op.color (10, 20, 30)) initState).state) ∧
    inv (runOps true [Op.white none, Op.turnOnOp, Op.turnOffOp] initState) :=
  ⟨mode_invariant.2.1 true (Op.color (10, 20, 30)) initState rfl,
   mode_invariant.2.2 true [Op.white none, Op.turnOnOp, Op.turnOffOp]⟩

/-- C4: `set_color((10,20,30))` on a connected driver whose lamp is fully
off in white mode selects color mode (`0x37 0x02`), replays effect `"Off"`
(`0x34 0x00`), the color `(10,20,30)` (no white substitution, since the
stored color is the just-updated target, not the zero triple), and the
default color brightness 255 (`0x31 0x02 100`), never re-entering
`turn_on`, and ends with `mode = rgb`, `colorOn = true`,
`rgb = (10,20,30)`, `isOn = true`. -/
theorem set_color_while_off_in_white :
    (set_color true (10, 20, 30) offWhiteConnected).state =
      { isOn := true, lightOn := false, colorOn := true, rgbColor := (10, 20, 30),
        brightness := none, colorBrightness := some 255, effect := "Off",
        mode := ColorMode.rgb, connected := true } ∧
    ((set_color true (10, 20, 30) offWhiteConnected).sent.filter
      (fun m => decide (m.head? ≠ some 0x30))) =
      [[0x37, 0x02], [0x34, 0x00], [0x32, 10, 20, 30], [0x31, 0x02, 100]] := by
  decide

/-- C2: refuted by the code: a version-2 notification of length 10 with
on-byte `res[9] = 1` drives `notification_handler` into reading `res[16]`,
an out-of-bounds access that raises `IndexError` in Python; in the
embedding the explicit bounds check yields `none` instead of a completed
merge. -/
theorem notification_oob_failure :
    notification_handler [0, 0, 0, 0, 0, 0, 0, 0, 2, 1] initState = none := by decide

/-- C9: every notification shorter than 9 bytes is ignored: the handler
returns without any out-of-bounds access, leaves the state unchanged, and
fires no callback. -/
theorem short_notification (res : List Nat) (s : DriverState)
    (h : res.length < 9) :
    notification_handler res s = some (s, false) := by
  simp [notification_handler, h]

/-- Witness for C9 at a concrete 3-byte notification. -/
theorem short_notification_witness :
    notification_handler [1, 2, 3] initState = some (initState, false) :=
  short_notification [1, 2, 3] initState (by decide)

/-- C5 (amended): for a version-1 notification with on-byte 1 and percent
byte `p > 0`, the stored white brightness is the truncation
`p * 255 / 100` (Python `int(res[10]*255/100)`), not the rounded value. -/
theorem v1_brightness (res : List Nat) (s : DriverState) (p : Nat)
    (h8 : res[8]? = some 1) (h9 : res[9]? = some 1)
    (h10 : res[10]? = some p) (hp : 0 < p) :
    (notification_handler res s).map (fun q => q.1.brightness) =
      some (some (p * 255 / 100)) := by
  have hlen : ¬ res.length < 9 := by
    intro hl
    rw [List.getElem?_eq_none (by omega)] at h10
    exact Option.noConfusion h10
  simp [notification_handler, hlen, h8, h9, h10, hp, mergeTail]

/-- Witness for C5's amended statement at percent byte 50. -/
theorem v1_brightness_witness :
    (notification_handler [0, 0, 0, 0, 0, 0, 0, 0, 1, 1, 50] initState).map
      (fun q => q.1.brightness) = some (some (50 * 255 / 100)) :=
  v1_brightness _ initState 50 (by decide) (by decide) (by decide) (by decide)

/-- C5 counterexample: at percent byte 50 the code stores 127 (truncating
`int(50*255/100)`), while `round(50*255/100) = round(127.5) = 128` as the
claim states; 127 is not 128. -/
theorem v1_brightness_counterexample :
    (notification_handler [0, 0, 0, 0, 0, 0, 0, 0, 1, 1, 50] initState).map
      (fun q => q.1.brightness) = some (some 127) ∧
    specRound (50 * 255) 100 = 128 ∧ (127 : Nat) ≠ 128 := by decide

/-- C6 (amended): for `v` in 0–255 with the lamp already on in the
matching mode, the percent byte placed in the outgoing packet is the
truncation `int(v/255*100)` clamped to [0,100], i.e.
`max 0 (min 100 (v*100/255))`, not the rounded value. -/
theorem percent_byte_truncated (env : Bool) (v : Nat) (s : DriverState)
    (_hv : v ≤ 255) (hon : s.isOn = true) (hconn : s.connected = true) :
    (s.colorOn = true →
      (set_color_brightness env (some v) s).sent.head? =
        some [0x31, 0x02, max 0 (min 100 (v * 100 / 255))]) ∧
    (s.lightOn = true →
      (set_white env (some v) s).sent.head? =
        some [0x31, 0x01, max 0 (min 100 (v * 100 / 255))]) := by
  constructor <;> intro h
  · simp [set_color_brightness, andThen, sendPacket, pct, hon, hconn, h]
  · simp [set_white, andThen, sendPacket, pct, hon, hconn, h]

/-- Witness for C6's amended statement at `v = 4` in both modes. -/
theorem percent_byte_truncated_witness :
    (4 : Nat) ≤ 255 ∧
    (set_color_brightness true (some 4) onColorState).sent.head? =
      some [0x31, 0x02, max 0 (min 100 (4 * 100 / 255))] ∧
    (set_white true (some 4) onWhiteState).sent.head? =
      some [0x31, 0x01, max 0 (min 100 (4 * 100 / 255))] :=
  ⟨by decide,
   (percent_byte_truncated true 4 onColorState (by decide) (by decide)
     (by decide)).1 (by decide),
   (percent_byte_truncated true 4 onWhiteState (by decide) (by decide)
     (by decide)).2 (by decide)⟩

/-- C6 counterexample: at `v = 4` the emitted percent byte is
`int(4/255*100) = 1`, while `round(4/255*100) = 2` as the claim states;
1 is not 2. -/
theorem percent_byte_counterexample :
    (set_color_brightness true (some 4) onColorState).sent.head? =
      some [0x31, 0x02, 1] ∧
    specRound (4 * 100) 255 = 2 ∧ (1 : Nat) ≠ 2 := by decide

/-- C8 (amended): `turn_off` on a disconnected driver does attempt to
reconnect (each `sendPacket` first tries `connect()`), but the local
off-state is achieved in all cases: afterwards `isOn`, `lightOn` and
`colorOn` are all false. -/
theorem turn_off_disconnected (env : Bool) (s : DriverState)
    (h : s.connected = false) :
    (turn_off env s).state.isOn = false ∧
    (turn_off env s).state.lightOn = false ∧
    (turn_off env s).state.colorOn = false ∧
    1 ≤ (turn_off env s).attempts := by
  obtain ⟨po, lo, co, rc, br, cb, ef, md, cn⟩ := s
  cases cn
  · cases env <;>
      simp [turn_off, andThen, sendPacket, tryConnect, triggerStatus, clearFlags]
  · simp at h

/-- Witness for C8's amended statement on a fresh disconnected driver with
failing reconnects. -/
theorem turn_off_disconnected_witness :
    (turn_off false initState).state.isOn = false ∧
    (turn_off false initState).state.lightOn = false ∧
    (turn_off false initState).state.colorOn = false ∧
    1 ≤ (turn_off false initState).attempts :=
  turn_off_disconnected false initState (by decide)

/-- C8 counterexample: `turn_off` from a disconnected driver makes 4
connection attempts (one per `sendPacket`: two off sub-commands plus the
two status queries), refuting the claim that it does not attempt to
reconnect. -/
theorem turn_off_reconnects_counterexample :
    (turn_off false initState).attempts = 4 ∧ (4 : Nat) ≠ 0 := by decide

/-- C10: when the lamp is already on in white mode, a completed
`set_white` leaves the stored mode equal to RGB and the stored effect
equal to `"Off"`: the trailing forced `set_effect("Off")` call switches
the stored mode to color unconditionally. -/
theorem set_white_leaves_rgb_mode (env : Bool) (i : Option Nat) (s : DriverState)
    (h1 : s.isOn = true) (h2 : s.lightOn = true) :
    (set_white env i s).state.mode = ColorMode.rgb ∧
    (set_white env i s).state.effect = "Off" := by
  simp [set_white, h1, h2, andThen, applyEffect_state_mode, applyEffect_state_effect]

/-- Witness for C10 on a lamp on in white mode. -/
theorem set_white_leaves_rgb_mode_witness :
    (set_white true (some 200) onWhiteState).state.mode = ColorMode.rgb ∧
    (set_white true (some 200) onWhiteState).state.effect = "Off" :=
  set_white_leaves_rgb_mode true (some 200) onWhiteState (by decide) (by decide)

end Beurer

namespace Beurer

/-- C7: reconciliation is idempotent with respect to the change callback:
if processing a notification succeeds, producing state `p.1` and firing
the callback iff `p.2`, then processing the same notification again leaves
`p.1` unchanged and fires no callback. -/
theorem notification_idempotent (res : List Nat) (s : DriverState)
    (p : DriverState × Bool) (h : notification_handler res s = some p) :
    notification_handler res p.1 = some (p.1, false) := by
  unfold notification_handler at h ⊢
  by_cases hlen : res.length < 9
  · rw [if_pos hlen] at h ⊢
  · rw [if_neg hlen] at h ⊢
    cases h8 : res[8]? with
    | none => rw [h8] at h; exact absurd h (by simp)
    | some rv =>
      simp only [h8] at h ⊢
      by_cases hrv1 : rv = 1
      · rw [if_pos hrv1] at h ⊢
        cases h9 : res[9]? with
        | none => rw [h9] at h; exact absurd h (by simp)
        | some b9 =>
          simp only [h9] at h ⊢
          by_cases hb9 : b9 = 1
          · rw [if_pos hb9] at h ⊢
            cases h10 : res[10]? with
            | none => rw [h10] at h; exact absurd h (by simp)
            | some b10 =>
              simp only [h10, mergeTail] at h
              simp only [h10]
              obtain rfl := Option.some.inj h
              simp [mergeTail]
          · rw [if_neg hb9] at h ⊢
            simp only [mergeTail] at h
            obtain rfl := Option.some.inj h
            simp [mergeTail]
      · rw [if_neg hrv1] at h ⊢
        by_cases hrv2 : rv = 2
        · rw [if_pos hrv2] at h ⊢
          cases h9 : res[9]? with
          | none => rw [h9] at h; exact absurd h (by simp)
          | some b9 =>
            simp only [h9] at h ⊢
            by_cases hb9 : b9 = 1
            · rw [if_pos hb9] at h ⊢
              cases h16 : res[16]? with
              | none => rw [h16] at h; exact absurd h (by simp)
              | some b16 =>
                simp only [h16] at h ⊢
                cases h10 : res[10]? with
                | none => rw [h10] at h; exact absurd h (by simp)
                | some b10 =>
                  simp only [h10] at h ⊢
                  cases h13 : res[13]? with
                  | none => rw [h13] at h; exact absurd h (by simp)
                  | some b13 =>
                    simp only [h13] at h ⊢
                    cases h14 : res[14]? with
                    | none => rw [h14] at h; exact absurd h (by simp)
                    | some b14 =>
                      simp only [h14] at h ⊢
                      cases h15 : res[15]? with
                      | none => rw [h15] at h; exact absurd h (by simp)
                      | some b15 =>
                        simp only [h15, mergeTail] at h
                        simp only [h15]
                        obtain rfl := Option.some.inj h
                        simp [mergeTail]
            · rw [if_neg hb9] at h ⊢
              simp only [mergeTail] at h
              obtain rfl := Option.some.inj h
              simp [mergeTail]
        · rw [if_neg hrv2] at h ⊢
          by_cases hrv255 : rv = 255
          · rw [if_pos hrv255] at h ⊢
            simp only [mergeTail] at h
            obtain rfl := Option.some.inj h
            simp [mergeTail]
          · rw [if_neg hrv255] at h ⊢
            by_cases hrv0 : rv = 0
            · rw [if_pos hrv0] at h ⊢
              obtain rfl := Option.some.inj h
              simp
            · rw [if_neg hrv0] at h ⊢

/-- Witness for C7 on a concrete version-1 status notification. -/
theorem notification_idempotent_witness :
    notification_handler [0, 0, 0, 0, 0, 0, 0, 0, 1, 1, 50]
        { isOn := true, lightOn := true, colorOn := false, rgbColor := (0, 0, 0)
          brightness := some 127, colorBrightness := none, effect := "Off"
          mode := ColorMode.white, connected := false } =
      some ({ isOn := true, lightOn := true, colorOn := false, rgbColor := (0, 0, 0)
              brightness := some 127, colorBrightness := none, effect := "Off"
              mode := ColorMode.white, connected := false }, false) :=
  notification_idempotent [0, 0, 0, 0, 0, 0, 0, 0, 1, 1, 50] initState
    ({ isOn := true, lightOn := true, colorOn := false, rgbColor := (0, 0, 0)
       brightness := some 127, colorBrightness := none, effect := "Off"
       mode := ColorMode.white, connected := false }, true) (by decide)

end Beurer
